import Mathlib

/-!
Verification development for the transaction-tracking service (FastAPI app under
`app/`).  Monetary amounts are modelled as exact decimals (`ℚ`); machine floats
at the HTTP boundary are idealised to exact decimal arithmetic, while the
integer paths (`int(...)` truncation, integer column sums) are modelled
precisely.  Each definition is a shallow embedding of the Python function named
in its doc comment.
-/

namespace TxTrack

/-- Python `int()` applied to an exact decimal value: truncation toward zero. -/
def truncRat (q : ℚ) : ℤ := if 0 ≤ q then ⌊q⌋ else ⌈q⌉

/-- Python `round(x, 2)` at exact-decimal precision: round half to even on the
second decimal digit (banker's rounding, Python 3 semantics). -/
def roundHalfEven (q : ℚ) : ℤ :=
  if q - ⌊q⌋ < 1/2 then ⌊q⌋
  else if (1 : ℚ)/2 < q - ⌊q⌋ then ⌊q⌋ + 1
  else if Even ⌊q⌋ then ⌊q⌋ else ⌊q⌋ + 1

/-- `round(v, 2)` as used by `TransactionCreate.validate_amount`. -/
def pyRound2 (q : ℚ) : ℚ := (roundHalfEven (q * 100) : ℚ) / 100

/-- ASCII uppercasing of one character, as Python `str.upper()` acts on the
ASCII range (currency codes are ASCII). -/
def charUpper (c : Char) : Char :=
  if 'a' ≤ c ∧ c ≤ 'z' then Char.ofNat (c.toNat - 32) else c

/-- Python `str.upper()` on an ASCII string (`target_currency.upper()`,
`v.upper()` in the schemas). -/
def pyUpper (s : String) : String := ⟨s.data.map charUpper⟩

/-- The regex check `re.match(r"^[A-Z]{3}$", v)` used by both
`TransactionCreate.validate_currency` and `convert_transaction`. -/
def isUpperAlpha3 (s : String) : Bool :=
  s.data.length == 3 && s.data.all (fun c => 'A' ≤ c && c ≤ 'Z')

/-- Modelled from the spec: `app/core/constants.py` (imported as
`from app.core.constants import SUPPORTED_CURRENCIES`) is not under `src/`.
The spec describes a CurrencyRegistry as a fixed immutable whitelist of
uppercase 3-letter codes; the repository's tests accept USD, EUR, GBP, JPY and
reject XYZ and ABC, so those four members stand for the registry here. -/
def SUPPORTED_CURRENCIES : List String := ["USD", "EUR", "GBP", "JPY"]

/-- `TransactionCreate.validate_amount`: reject non-positive amounts, round the
accepted amount to 2 decimal places. -/
def validate_amount (v : ℚ) : Except String ℚ :=
  if v ≤ 0 then .error "Amount must be positive" else .ok (pyRound2 v)

/-- `TransactionCreate.validate_currency`: uppercase, check the 3-letter shape,
then check registry membership. -/
def validate_currency (v : String) : Except String String :=
  let vu := pyUpper v
  if isUpperAlpha3 vu = false then .error "Currency must be a 3-letter code"
  else if vu ∈ SUPPORTED_CURRENCIES then .ok vu
  else .error "Currency code not supported"

/-- A persisted row of the `transactions` table (`app/models/transaction.py`):
integer id, owner id, integer amount in scale units, 3-letter currency,
server-assigned creation timestamp (modelled as a natural number). -/
structure Transaction where
  id : ℕ
  user_id : ℕ
  amount : ℤ
  currency : String
  created_at : ℕ
deriving DecidableEq

/-- The database session state: rows in insertion order plus the id sequence
and the server clock used for `created_at`. -/
structure Store where
  txns : List Transaction
  nextId : ℕ
  clock : ℕ
deriving DecidableEq

/-- `TransactionResponse` (`app/schemas/transaction.py`): carries the integer
amount as stored; `serialize_amount` turns it into a decimal on output. -/
structure TransactionResponse where
  id : ℕ
  amount : ℤ
  currency : String
  created_at : ℕ
deriving DecidableEq

/-- `model_config from_attributes`: a response built directly from a row. -/
def TransactionResponse.ofTransaction (t : Transaction) : TransactionResponse :=
  ⟨t.id, t.amount, t.currency, t.created_at⟩

/-- `TransactionResponse.serialize_amount`: `amount / 10000.0`. -/
def serialize_amount (amount : ℤ) : ℚ := (amount : ℚ) / 10000

/-- `create_transaction` endpoint (`app/api/endpoints/transactions.py`):
pydantic validation of amount and currency, then
`amount_cents = int(transaction_data.amount * 100)` and a single insert that
assigns the next id and the current server time. -/
def create_transaction (s : Store) (userId : ℕ) (amount : ℚ) (currency : String) :
    Except String (Transaction × Store) := do
  let a ← validate_amount amount
  let c ← validate_currency currency
  let t : Transaction := ⟨s.nextId, userId, truncRat (a * 100), c, s.clock⟩
  return (t, ⟨s.txns ++ [t], s.nextId + 1, s.clock + 1⟩)

/-- The `WHERE Transaction.user_id == current_user.id` filter shared by the
list and summary queries. -/
def ownerTransactions (txns : List Transaction) (userId : ℕ) : List Transaction :=
  txns.filter (fun t => t.user_id == userId)

/-- The `ORDER BY created_at DESC` key: `a` may precede `b` exactly when `a`'s
timestamp is at least `b`'s. -/
def createdDesc (a b : Transaction) : Prop := b.created_at ≤ a.created_at

instance : DecidableRel createdDesc := fun _ _ => Nat.decLe _ _

instance : IsTotal Transaction createdDesc :=
  ⟨fun a b => (Nat.le_total b.created_at a.created_at).imp id id⟩

instance : IsTrans Transaction createdDesc :=
  ⟨fun _ _ _ hab hbc => Nat.le_trans hbc hab⟩

/-- The list query's `ORDER BY Transaction.created_at.desc()`: a stable sort,
newest first, ties left in insertion order (the storage engine returns tied
rows in rowid order). -/
def orderByCreatedDesc (l : List Transaction) : List Transaction :=
  l.insertionSort createdDesc

/-- `TransactionListResponse` (`app/schemas/transaction.py`). -/
structure TransactionListResponse where
  items : List TransactionResponse
  total : ℕ
  page : ℕ
  per_page : ℕ
  total_pages : ℕ
deriving DecidableEq

/-- `list_transactions` endpoint: `offset = (page - 1) * per_page`, count the
owner's rows, fetch one page of the owner's rows ordered newest first, and
`total_pages = (total + per_page - 1) // per_page if total > 0 else 0`. -/
def list_transactions (txns : List Transaction) (userId page per_page : ℕ) :
    TransactionListResponse :=
  let offset := (page - 1) * per_page
  let owned := ownerTransactions txns userId
  let total := owned.length
  let items := ((orderByCreatedDesc owned).drop offset).take per_page
  let total_pages := if 0 < total then (total + per_page - 1) / per_page else 0
  ⟨items.map TransactionResponse.ofTransaction, total, page, per_page, total_pages⟩

/-- Byte-wise lexicographic string comparison (binary collation of the
`ORDER BY currency` on ASCII currency codes). -/
def lexLeb : List Char → List Char → Bool
  | [], _ => true
  | _ :: _, [] => false
  | a :: as, b :: bs =>
    if a.toNat < b.toNat then true
    else if b.toNat < a.toNat then false
    else lexLeb as bs

/-- The summary query's `ORDER BY Transaction.currency` key. -/
def currencyLe (a b : String) : Prop := lexLeb a.data b.data = true

instance : DecidableRel currencyLe := fun _ _ => instDecidableEqBool _ _

/-- `CurrencySummary` (`app/schemas/transaction.py`): a currency code and its
decimal total. -/
structure CurrencySummary where
  currency : String
  total : ℚ
deriving DecidableEq

/-- The summary query's `func.sum(Transaction.amount)` for one currency group:
integer addition over the stored integer amounts. -/
def sumAmounts (l : List Transaction) (c : String) : ℤ :=
  ((l.filter (fun t => t.currency == c)).map (fun t => t.amount)).sum

/-- `get_transaction_summary` endpoint: `GROUP BY currency` over the owner's
rows, integer `SUM(amount)` per group, `ORDER BY currency`, then
`float(row.total_amount) / 100.0` on each group total. -/
def get_transaction_summary (txns : List Transaction) (userId : ℕ) :
    List CurrencySummary :=
  ((((ownerTransactions txns userId).map (fun t => t.currency)).dedup).insertionSort
      currencyLe).map
    (fun c => ⟨c, (sumAmounts (ownerTransactions txns userId) c : ℚ) / 100⟩)

/-- `CurrencyConverter.convert`: the amount sent to the external API,
`amount_micro_cents / 10000.0`. -/
def amountCurrencyUnits (amount_micro_cents : ℤ) : ℚ :=
  (amount_micro_cents : ℚ) / 10000

/-- The observable outcome of the single `httpx` request made by
`CurrencyConverter.convert`: either a parsed 2xx JSON body (its `result`,
`error-type` and `conversion_result` fields, each possibly absent), or one of
the fault classes the `except` clauses distinguish. -/
inductive HttpOutcome
  | success (result : Option String) (errorType : Option String)
      (conversion_result : Option ℚ)
  | timeout
  | statusError (code : ℕ)
  | connectError (msg : String)
  | jsonError (msg : String)
  | unexpected (msg : String)
deriving DecidableEq

/-- `CurrencyConverter._translate_api_error`: the fixed lookup table from API
error codes to user-facing messages, with a generic fallthrough. -/
def translate_api_error (errorType : String) : String :=
  if errorType = "unsupported-code" then "Currency code not supported"
  else if errorType = "malformed-request" then "Invalid currency conversion request"
  else if errorType = "invalid-key" then "Invalid API key"
  else if errorType = "inactive-account" then "Currency API account is inactive"
  else if errorType = "quota-reached" then "Currency API quota exceeded"
  else "Currency API error: " ++ errorType

/-- `CurrencyConverter.convert` after the request resolves: returns a pair
`(converted_amount_micro_cents, error_message)`, exactly one side populated.
On success the decimal `conversion_result` is scaled by
`int(conversion_result * 10000)` (truncation toward zero). -/
def CurrencyConverter.convert (o : HttpOutcome) : Option ℤ × Option String :=
  match o with
  | .success result errorType cr =>
    if result == some "error" then
      (none, some (translate_api_error (errorType.getD "unknown")))
    else
      match cr with
      | none => (none, some "Invalid response from currency API")
      | some q => (some (truncRat (q * 10000)), none)
  | .timeout => (none, some "Currency conversion request timed out")
  | .statusError c => (none, some ("Currency API returned error: " ++ toString c))
  | .connectError m => (none, some ("Failed to connect to currency API: " ++ m))
  | .jsonError m => (none, some ("Failed to parse currency API response: " ++ m))
  | .unexpected m => (none, some ("Unexpected error during currency conversion: " ++ m))

/-- The FastAPI `HTTPException` raised by `convert_transaction`. -/
structure HTTPException where
  status_code : ℕ
  detail : String
deriving DecidableEq

/-- The conversion endpoint's transaction lookup:
`SELECT ... WHERE id == transaction_id AND user_id == current_user.id`,
`scalar_one_or_none`. -/
def find_transaction (txns : List Transaction) (tid userId : ℕ) : Option Transaction :=
  txns.find? (fun t => t.id == tid && t.user_id == userId)

/-- `convert_transaction` endpoint (`app/api/endpoints/convert.py`): uppercase
and shape-check the target currency, look up the owner's transaction, return
it unchanged on a same-currency request, otherwise call the converter and
either build a response from the original metadata plus the converted amount,
or fail with a generic 503.  The second component records whether the external
converter was invoked.  (When the error side is `none` the value side is
always populated — see `convert_exactly_one_side` — so the `getD` default is
never taken.) -/
def convert_transaction (txns : List Transaction) (userId tid : ℕ)
    (target : String) (api : HttpOutcome) :
    Except HTTPException TransactionResponse × Bool :=
  let targetU := pyUpper target
  if isUpperAlpha3 targetU = false then
    (.error ⟨422, "Currency must be a 3-letter code"⟩, false)
  else
    match find_transaction txns tid userId with
    | none => (.error ⟨404, "Transaction not found"⟩, false)
    | some t =>
      if t.currency == targetU then
        (.ok (TransactionResponse.ofTransaction t), false)
      else
        match CurrencyConverter.convert api with
        | (_, some _) => (.error ⟨503, "Currency conversion failed"⟩, true)
        | (converted, none) =>
          (.ok ⟨t.id, converted.getD 0, targetU, t.created_at⟩, true)

/-- Concrete store used for the 40.00-summary scenario: the stored integer
amounts the creation pipeline produces for decimal inputs
10.99, 20.01, 5.50, 3.50 in USD for user 1. -/
def demo40 : List Transaction :=
  [⟨1, 1, 1099, "USD", 0⟩, ⟨2, 1, 2001, "USD", 1⟩,
   ⟨3, 1, 550, "USD", 2⟩, ⟨4, 1, 350, "USD", 3⟩]

/-- Concrete store with fifteen transactions for user 1, used for the
pagination scenario. -/
def store15 : List Transaction :=
  (List.range 15).map (fun i => ⟨i + 1, 1, 100 * ((i : ℤ) + 1), "USD", i + 1⟩)

/-- `convert_transaction` with the database session threaded through: the
handler issues a single read-only query and contains no `add`/`commit`, so the
store it hands back is the store it received. -/
def convert_transaction_db (s : Store) (userId tid : ℕ) (target : String)
    (api : HttpOutcome) :
    (Except HTTPException TransactionResponse × Bool) × Store :=
  (convert_transaction s.txns userId tid target api, s)

instance {ε α : Type} [DecidableEq ε] [DecidableEq α] : DecidableEq (Except ε α) := fun x y =>
  match x, y with
  | .ok a, .ok b =>
    if h : a = b then isTrue (by rw [h]) else isFalse (by intro hh; cases hh; exact h rfl)
  | .error a, .error b =>
    if h : a = b then isTrue (by rw [h]) else isFalse (by intro hh; cases hh; exact h rfl)
  | .ok _, .error _ => isFalse (by intro hh; cases hh)
  | .error _, .ok _ => isFalse (by intro hh; cases hh)

theorem roundHalfEven_intCast (n : ℤ) : roundHalfEven (n : ℚ) = n := by
  unfold roundHalfEven
  rw [Int.floor_intCast]
  norm_num

theorem truncRat_intCast (n : ℤ) : truncRat (n : ℚ) = n := by
  unfold truncRat
  split <;> simp

theorem pyRound2_div100 (n : ℤ) : pyRound2 ((n : ℚ) / 100) = (n : ℚ) / 100 := by
  unfold pyRound2
  rw [div_mul_cancel₀ _ (by norm_num : (100 : ℚ) ≠ 0), roundHalfEven_intCast]

theorem truncRat_div100_mul100 (n : ℤ) : truncRat ((n : ℚ) / 100 * 100) = n := by
  rw [div_mul_cancel₀ _ (by norm_num : (100 : ℚ) ≠ 0), truncRat_intCast]

/-- Evaluation of the creation endpoint on a decimal amount with at most two
fractional digits (written `n / 100` for a positive integer `n`): the
validators accept, and the persisted integer amount is exactly `n`. -/
theorem create_transaction_eval (s : Store) (uid : ℕ) (n : ℤ) (c cu : String)
    (hn : 0 < n) (hc : validate_currency c = .ok cu) :
    create_transaction s uid ((n : ℚ) / 100) c =
      .ok (⟨s.nextId, uid, n, cu, s.clock⟩,
           ⟨s.txns ++ [⟨s.nextId, uid, n, cu, s.clock⟩], s.nextId + 1, s.clock + 1⟩) := by
  have hq : (0 : ℚ) < n := by exact_mod_cast hn
  have h0 : ¬ ((n : ℚ) / 100 ≤ 0) := by push_neg; positivity
  unfold create_transaction validate_amount
  rw [if_neg h0]
  simp [Bind.bind, Except.bind, Pure.pure, Except.pure, hc, pyRound2_div100,
    truncRat_div100_mul100, truncRat_intCast]

theorem lexLeb_cons_iff (a b : Char) (as bs : List Char) :
    lexLeb (a :: as) (b :: bs) = true ↔
      a.toNat < b.toNat ∨ (a.toNat = b.toNat ∧ lexLeb as bs = true) := by
  by_cases h1 : a.toNat < b.toNat
  · simp [lexLeb, h1]
  · by_cases h2 : b.toNat < a.toNat
    · simp [lexLeb, h1, h2]
      omega
    · have he : a.toNat = b.toNat := Nat.le_antisymm (Nat.le_of_not_lt h2) (Nat.le_of_not_lt h1)
      simp [lexLeb, h1, h2, he]

theorem lexLeb_total : ∀ a b : List Char, lexLeb a b = true ∨ lexLeb b a = true
  | [], _ => .inl rfl
  | _ :: _, [] => .inr rfl
  | a :: as, b :: bs => by
    rcases Nat.lt_trichotomy a.toNat b.toNat with h | h | h
    · exact .inl ((lexLeb_cons_iff a b as bs).mpr (.inl h))
    · rcases lexLeb_total as bs with ht | ht
      · exact .inl ((lexLeb_cons_iff a b as bs).mpr (.inr ⟨h, ht⟩))
      · exact .inr ((lexLeb_cons_iff b a bs as).mpr (.inr ⟨h.symm, ht⟩))
    · exact .inr ((lexLeb_cons_iff b a bs as).mpr (.inl h))

theorem lexLeb_trans : ∀ a b c : List Char,
    lexLeb a b = true → lexLeb b c = true → lexLeb a c = true
  | [], _, _, _, _ => rfl
  | _ :: _, [], _, hab, _ => by cases hab
  | _ :: _, _ :: _, [], _, hbc => by cases hbc
  | a :: as, b :: bs, c :: cs, hab, hbc => by
    rcases (lexLeb_cons_iff a b as bs).mp hab with h1 | ⟨h1, h1t⟩ <;>
      rcases (lexLeb_cons_iff b c bs cs).mp hbc with h2 | ⟨h2, h2t⟩
    · exact (lexLeb_cons_iff a c as cs).mpr (.inl (Nat.lt_trans h1 h2))
    · exact (lexLeb_cons_iff a c as cs).mpr (.inl (h2 ▸ h1))
    · exact (lexLeb_cons_iff a c as cs).mpr (.inl (h1 ▸ h2))
    · exact (lexLeb_cons_iff a c as cs).mpr
        (.inr ⟨h1.trans h2, lexLeb_trans as bs cs h1t h2t⟩)

instance : IsTotal String currencyLe :=
  ⟨fun a b => (lexLeb_total a.data b.data).imp id id⟩

instance : IsTrans String currencyLe :=
  ⟨fun a b c => lexLeb_trans a.data b.data c.data⟩

/-- Integer summation followed by one division by the scale distributes over
the per-transaction decimal values: the summary's group total is the exact
decimal sum of the group's individual decimal amounts. -/
theorem sumAmounts_div100 (l : List Transaction) (c : String) :
    (sumAmounts l c : ℚ) / 100
      = ((l.filter (fun t => t.currency == c)).map (fun t => (t.amount : ℚ) / 100)).sum := by
  unfold sumAmounts
  induction l.filter (fun t => t.currency == c) with
  | nil => simp
  | cons a as ih =>
    simp only [List.map_cons, List.sum_cons]
    rw [Int.cast_add, add_div, ih]

/-- Truncation toward zero never increases magnitude. -/
theorem truncRat_abs_le (x : ℚ) : |(truncRat x : ℚ)| ≤ |x| := by
  unfold truncRat
  split
  case isTrue h =>
    have h2 : (0 : ℚ) ≤ (⌊x⌋ : ℚ) := by exact_mod_cast Int.floor_nonneg.mpr h
    rw [abs_of_nonneg h, abs_of_nonneg h2]
    exact Int.floor_le x
  case isFalse h =>
    push_neg at h
    have h2 : ((⌈x⌉ : ℤ) : ℚ) ≤ 0 := by
      exact_mod_cast Int.ceil_le.mpr (show x ≤ ((0 : ℤ) : ℚ) by exact_mod_cast h.le)
    rw [abs_of_neg h, abs_of_nonpos h2]
    have := Int.le_ceil x
    linarith

/-- Truncation toward zero drops strictly less than one whole unit. -/
theorem abs_lt_truncRat_add_one (x : ℚ) : |x| < |(truncRat x : ℚ)| + 1 := by
  unfold truncRat
  split
  case isTrue h =>
    have h2 : (0 : ℚ) ≤ (⌊x⌋ : ℚ) := by exact_mod_cast Int.floor_nonneg.mpr h
    rw [abs_of_nonneg h, abs_of_nonneg h2]
    exact Int.lt_floor_add_one x
  case isFalse h =>
    push_neg at h
    have h2 : ((⌈x⌉ : ℤ) : ℚ) ≤ 0 := by
      exact_mod_cast Int.ceil_le.mpr (show x ≤ ((0 : ℤ) : ℚ) by exact_mod_cast h.le)
    rw [abs_of_neg h, abs_of_nonpos h2]
    have := Int.ceil_lt_add_one x
    linarith

/-- C1: the claim asserts one uniform scale of 10,000 units per currency unit
across creation, serialization, summary and conversion.  The code refutes it:
creating decimal `12.34` persists `int(12.34 * 100) = 1234` (scale 100), not
`12.34 * 10000 = 123400`; the response serializer divides the same stored
integer by 10,000 and the summary divides it by 100, so the two boundary
conversions of one stored amount disagree. -/
theorem c1_scale_not_uniform :
    create_transaction ⟨[], 1, 0⟩ 1 ((1234 : ℚ) / 100) "USD"
      = .ok (⟨1, 1, 1234, "USD", 0⟩, ⟨[⟨1, 1, 1234, "USD", 0⟩], 2, 1⟩) ∧
    truncRat (pyRound2 ((1234 : ℚ) / 100) * 10000) = 123400 ∧
    serialize_amount 1234 ≠ pyRound2 ((1234 : ℚ) / 100) ∧
    (sumAmounts [⟨1, 1, 1234, "USD", 0⟩] "USD" : ℚ) / 100 ≠ serialize_amount 1234 := by
  have h1234 : (1234 : ℚ) = ((1234 : ℤ) : ℚ) := by norm_num
  refine ⟨create_transaction_eval ⟨[], 1, 0⟩ 1 1234 "USD" "USD" (by norm_num) (by decide),
    ?_, ?_, ?_⟩
  · rw [h1234, pyRound2_div100]
    norm_num [truncRat]
  · rw [h1234, pyRound2_div100]
    norm_num [serialize_amount]
  · rw [show sumAmounts [⟨1, 1, 1234, "USD", 0⟩] "USD" = 1234 from rfl]
    norm_num [serialize_amount]

/-- C2: the claim asserts `toDecimal(parseDecimal(a, c)) = round(a, 2)`.
Counterexample at `a = 12.34`, `c = USD`: the pipeline stores `1234` and
serializes it to `1234 / 10000 = 0.1234`, not `12.34`. -/
theorem c2_roundtrip_fails :
    create_transaction ⟨[], 1, 0⟩ 1 ((1234 : ℚ) / 100) "USD"
      = .ok (⟨1, 1, 1234, "USD", 0⟩, ⟨[⟨1, 1, 1234, "USD", 0⟩], 2, 1⟩) ∧
    pyRound2 ((1234 : ℚ) / 100) = (1234 : ℚ) / 100 ∧
    serialize_amount 1234 = (1234 : ℚ) / 10000 ∧
    serialize_amount 1234 ≠ pyRound2 ((1234 : ℚ) / 100) := by
  have h1234 : (1234 : ℚ) = ((1234 : ℤ) : ℚ) := by norm_num
  refine ⟨create_transaction_eval ⟨[], 1, 0⟩ 1 1234 "USD" "USD" (by norm_num) (by decide),
    by rw [h1234, pyRound2_div100], by norm_num [serialize_amount], ?_⟩
  rw [h1234, pyRound2_div100]
  norm_num [serialize_amount]

/-- C3: the claim asserts the conversion endpoint validates the target
currency against the registry before any store access and rejects "XYZ" with
UnsupportedCurrency.  The code refutes it: the registry does reject "XYZ"
(first conjunct, the schema-level validator), but the conversion endpoint
performs only the shape check, reads the store, invokes the external converter
(flag `true`), and surfaces a generic 503 instead. -/
theorem c3_whitelist_not_checked :
    validate_currency "XYZ" = .error "Currency code not supported" ∧
    convert_transaction [⟨1, 1, 1000000, "USD", 0⟩] 1 1 "XYZ"
        (.success (some "error") (some "unsupported-code") none)
      = (.error ⟨503, "Currency conversion failed"⟩, true) := by
  constructor <;> decide

/-- C4: on a well-formed success response carrying decimal
`conversion_result`, the converter returns the integer obtained by multiplying
by 10,000 and truncating toward zero: the result's magnitude is the floor of
the product's magnitude.  At `conversion_result = 0.99999` the product is
`9999.9` and the result is `9999`, not the nearest integer `10000`. -/
theorem c4_success_truncates_toward_zero (q : ℚ) :
    (CurrencyConverter.convert (.success (some "success") none (some q))).1
      = some (truncRat (q * 10000)) ∧
    |(truncRat (q * 10000) : ℚ)| ≤ |q * 10000| ∧
    |q * 10000| < |(truncRat (q * 10000) : ℚ)| + 1 ∧
    (CurrencyConverter.convert
        (.success (some "success") none (some ((99999 : ℚ) / 100000)))).1
      = some 9999 := by
  refine ⟨rfl, truncRat_abs_le _, abs_lt_truncRat_add_one _, ?_⟩
  show some (truncRat ((99999 : ℚ) / 100000 * 10000)) = some 9999
  rw [show truncRat ((99999 : ℚ) / 100000 * 10000) = 9999 by norm_num [truncRat]]

/-- C5: every failure of the converter is returned as a `(none, message)`
pair — a value is produced exactly when no error message is — with the
message determined by the fault class: timeout, non-2xx status, connection
failure, unparsable body, missing numeric field, and structured API errors
mapped through the fixed lookup table, where `quota-reached` yields
"Currency API quota exceeded" and the unknown code `foo-bar` falls through to
"Currency API error: foo-bar". -/
theorem c5_error_taxonomy :
    (∀ o : HttpOutcome,
      ((CurrencyConverter.convert o).1.isNone) = ((CurrencyConverter.convert o).2.isSome)) ∧
    CurrencyConverter.convert .timeout
      = (none, some "Currency conversion request timed out") ∧
    (∀ c : ℕ, CurrencyConverter.convert (.statusError c)
      = (none, some ("Currency API returned error: " ++ toString c))) ∧
    (∀ m, CurrencyConverter.convert (.connectError m)
      = (none, some ("Failed to connect to currency API: " ++ m))) ∧
    (∀ m, CurrencyConverter.convert (.jsonError m)
      = (none, some ("Failed to parse currency API response: " ++ m))) ∧
    (∀ m, CurrencyConverter.convert (.unexpected m)
      = (none, some ("Unexpected error during currency conversion: " ++ m))) ∧
    (∀ (et : Option String) (cr : Option ℚ),
      CurrencyConverter.convert (.success (some "error") et cr)
        = (none, some (translate_api_error (et.getD "unknown")))) ∧
    translate_api_error "quota-reached" = "Currency API quota exceeded" ∧
    translate_api_error "foo-bar" = "Currency API error: foo-bar" ∧
    CurrencyConverter.convert (.success (some "success") none none)
      = (none, some "Invalid response from currency API") := by
  refine ⟨?_, rfl, fun c => rfl, fun m => rfl, fun m => rfl, fun m => rfl, ?_, by decide,
    by decide, rfl⟩
  · intro o
    rcases o with ⟨r, et, cr⟩ | _ | _ | _ | _ | _ <;>
      first
        | rfl
        | (cases cr <;> by_cases h : r == some "error" <;>
            simp [CurrencyConverter.convert, h])
  · intro et cr
    simp [CurrencyConverter.convert]

/-- C6: whenever no transaction row matches both the requested id and the
caller — the id is absent from the store entirely, or present with a
different owner — the conversion endpoint produces the one fixed result
`404 "Transaction not found"` with no external call, so the two cases are
indistinguishable to the caller. -/
theorem c6_cross_user_not_found (txns : List Transaction) (uid tid : ℕ)
    (target : String) (api : HttpOutcome)
    (hshape : isUpperAlpha3 (pyUpper target) = true)
    (hown : ∀ t ∈ txns, t.id = tid → t.user_id ≠ uid) :
    convert_transaction txns uid tid target api
      = (.error ⟨404, "Transaction not found"⟩, false) := by
  have hfind : find_transaction txns tid uid = none := by
    apply List.find?_eq_none.mpr
    intro t ht
    simp only [Bool.and_eq_true, beq_iff_eq, not_and]
    intro h1 h2
    exact hown t ht h1 h2
  simp [convert_transaction, hshape, hfind]

/-- Witness for C6: user 2 requests transaction 1, which exists but belongs to
user 7; the result is the 404 with no converter call. -/
theorem c6_cross_user_not_found_witness :
    isUpperAlpha3 (pyUpper "EUR") = true ∧
    (∀ t ∈ [(⟨1, 7, 10000, "USD", 0⟩ : Transaction)], t.id = 1 → t.user_id ≠ 2) ∧
    convert_transaction [⟨1, 7, 10000, "USD", 0⟩] 2 1 "EUR" .timeout
      = (.error ⟨404, "Transaction not found"⟩, false) :=
  ⟨by decide, by decide,
    c6_cross_user_not_found [⟨1, 7, 10000, "USD", 0⟩] 2 1 "EUR" .timeout
      (by decide) (by decide)⟩

/-- C7: when the stored transaction's currency equals the (normalized) target
currency, the endpoint returns the stored record unchanged and the external
converter is not invoked — the result does not depend on the API outcome at
all. -/
theorem c7_same_currency_short_circuit (txns : List Transaction) (uid tid : ℕ)
    (target : String) (api : HttpOutcome) (t : Transaction)
    (hfind : find_transaction txns tid uid = some t)
    (hshape : isUpperAlpha3 (pyUpper target) = true)
    (hcur : t.currency = pyUpper target) :
    convert_transaction txns uid tid target api
      = (.ok (TransactionResponse.ofTransaction t), false) := by
  simp [convert_transaction, hshape, hfind, hcur]

/-- Witness for C7: converting a stored 50.00 GBP transaction to GBP returns
it unchanged with no converter call, even when the external API would have
timed out. -/
theorem c7_same_currency_short_circuit_witness :
    find_transaction [(⟨1, 1, 500000, "GBP", 3⟩ : Transaction)] 1 1
      = some ⟨1, 1, 500000, "GBP", 3⟩ ∧
    isUpperAlpha3 (pyUpper "GBP") = true ∧
    ("GBP" : String) = pyUpper "GBP" ∧
    convert_transaction [⟨1, 1, 500000, "GBP", 3⟩] 1 1 "GBP" .timeout
      = (.ok (TransactionResponse.ofTransaction ⟨1, 1, 500000, "GBP", 3⟩), false) :=
  ⟨by decide, by decide, by decide,
    c7_same_currency_short_circuit [⟨1, 1, 500000, "GBP", 3⟩] 1 1 "GBP" .timeout
      ⟨1, 1, 500000, "GBP", 3⟩ (by decide) (by decide) (by decide)⟩

/-- C8: a conversion request never mutates the store — the session state
handed back equals the one received for every input, success or failure —
and on converter success the response carries the original id and creation
timestamp together with the converted amount and the target currency. -/
theorem c8_no_mutation (s : Store) (uid tid : ℕ) (target : String)
    (api : HttpOutcome) :
    (convert_transaction_db s uid tid target api).2 = s ∧
    (∀ (t : Transaction) (r : ℤ),
      find_transaction s.txns tid uid = some t →
      isUpperAlpha3 (pyUpper target) = true →
      t.currency ≠ pyUpper target →
      CurrencyConverter.convert api = (some r, none) →
      (convert_transaction_db s uid tid target api).1.1
        = .ok ⟨t.id, r, pyUpper target, t.created_at⟩) := by
  refine ⟨rfl, ?_⟩
  intro t r hfind hshape hne hapi
  have hbeq : (t.currency == pyUpper target) = false := beq_eq_false_iff_ne.mpr hne
  simp [convert_transaction_db, convert_transaction, hshape, hfind, hbeq, hapi]

/-- Witness for C8: converting the stored 100.00 USD transaction (owner 1,
created at time 5) to EUR with the API reporting `conversion_result = 85`
leaves the store identical and yields the response with the original id and
timestamp, the converted amount, and currency EUR. -/
theorem c8_no_mutation_witness :
    (convert_transaction_db ⟨[⟨1, 1, 1000000, "USD", 5⟩], 2, 6⟩ 1 1 "EUR"
        (.success (some "success") none (some 85))).2
      = ⟨[⟨1, 1, 1000000, "USD", 5⟩], 2, 6⟩ ∧
    find_transaction [⟨1, 1, 1000000, "USD", 5⟩] 1 1 = some ⟨1, 1, 1000000, "USD", 5⟩ ∧
    isUpperAlpha3 (pyUpper "EUR") = true ∧
    ("USD" : String) ≠ pyUpper "EUR" ∧
    CurrencyConverter.convert (.success (some "success") none (some 85))
      = (some (truncRat ((85 : ℚ) * 10000)), none) ∧
    (convert_transaction_db ⟨[⟨1, 1, 1000000, "USD", 5⟩], 2, 6⟩ 1 1 "EUR"
        (.success (some "success") none (some 85))).1.1
      = .ok ⟨1, truncRat ((85 : ℚ) * 10000), pyUpper "EUR", 5⟩ :=
  have h := c8_no_mutation ⟨[⟨1, 1, 1000000, "USD", 5⟩], 2, 6⟩ 1 1 "EUR"
    (.success (some "success") none (some 85))
  ⟨h.1, by decide, by decide, by decide, rfl,
    h.2 ⟨1, 1, 1000000, "USD", 5⟩ (truncRat ((85 : ℚ) * 10000)) (by decide) (by decide)
      (by decide) rfl⟩

/-- C9: for every page ≥ 1 and perPage in [1, 50], the listing reports a total
equal to the owner's full transaction count (independent of the page size),
totalPages equal to the ceiling of total / perPage (0 when the total is 0),
and one page of the owner's transactions sorted by creation timestamp
descending by a stable sort — tied rows keep their insertion order; on the
fifteen-transaction store with perPage = 10, page 1 has 10 items, page 2 has
5, and totalPages is 2. -/
theorem c9_pagination (txns : List Transaction) (uid page perPage : ℕ)
    (hpage : 1 ≤ page) (hpp1 : 1 ≤ perPage) (hpp50 : perPage ≤ 50) :
    (list_transactions txns uid page perPage).total
      = (ownerTransactions txns uid).length ∧
    (list_transactions txns uid page perPage).total_pages
      = (list_transactions txns uid page perPage).total ⌈/⌉ perPage ∧
    (list_transactions txns uid page perPage).items
      = (((orderByCreatedDesc (ownerTransactions txns uid)).drop
          ((page - 1) * perPage)).take perPage).map TransactionResponse.ofTransaction ∧
    List.Sorted createdDesc (orderByCreatedDesc (ownerTransactions txns uid)) ∧
    List.Perm (orderByCreatedDesc (ownerTransactions txns uid)) (ownerTransactions txns uid) ∧
    (∀ a b : Transaction, List.Sublist [a, b] (ownerTransactions txns uid) →
      a.created_at = b.created_at →
      List.Sublist [a, b] (orderByCreatedDesc (ownerTransactions txns uid))) ∧
    (list_transactions store15 1 1 10).items.length = 10 ∧
    (list_transactions store15 1 2 10).items.length = 5 ∧
    (list_transactions store15 1 1 10).total_pages = 2 ∧
    (list_transactions store15 1 1 10).total = 15 := by
  refine ⟨rfl, ?_, rfl, List.sorted_insertionSort createdDesc _,
    List.perm_insertionSort createdDesc _, ?_, by decide, by decide, by decide, by decide⟩
  · show (if 0 < (ownerTransactions txns uid).length
        then ((ownerTransactions txns uid).length + perPage - 1) / perPage else 0)
      = (ownerTransactions txns uid).length ⌈/⌉ perPage
    rcases Nat.eq_zero_or_pos (ownerTransactions txns uid).length with h | h
    · rw [h, if_neg (lt_irrefl 0), Nat.ceilDiv_eq_add_pred_div]
      exact (Nat.div_eq_of_lt (by omega)).symm
    · rw [if_pos h, Nat.ceilDiv_eq_add_pred_div]
  · intro a b hsub heq
    exact List.pair_sublist_insertionSort (show createdDesc a b from le_of_eq heq.symm) hsub

/-- Witness for C9: the general pagination theorem applied to the concrete
fifteen-transaction store at page 1 with perPage 10. -/
theorem c9_pagination_witness :
    (1 : ℕ) ≤ 1 ∧ (1 : ℕ) ≤ 10 ∧ (10 : ℕ) ≤ 50 ∧
    (list_transactions store15 1 1 10).total = (ownerTransactions store15 1).length ∧
    (list_transactions store15 1 1 10).total_pages
      = (list_transactions store15 1 1 10).total ⌈/⌉ 10 :=
  have h := c9_pagination store15 1 1 10 (by decide) (by decide) (by decide)
  ⟨by decide, by decide, by decide, h.1, h.2.1⟩

/-- C10: the per-owner summary is exactly the owner's distinct currencies in
ascending alphabetical order, each paired with the exact decimal sum of that
currency's individual amounts (computed by integer addition and one division
by the scale); it is sorted, duplicate-free, mentions a currency exactly when
the owner has a transaction in it, is empty for an owner with no
transactions, and on the store produced by creating 10.99, 20.01, 5.50, 3.50
USD it reports exactly 40.00 USD. -/
theorem c10_summary_grouped_sorted (txns : List Transaction) (uid : ℕ) :
    get_transaction_summary txns uid
      = ((((ownerTransactions txns uid).map (fun t => t.currency)).dedup).insertionSort
          currencyLe).map
          (fun c => ⟨c, (((ownerTransactions txns uid).filter
              (fun t => t.currency == c)).map (fun t => (t.amount : ℚ) / 100)).sum⟩) ∧
    List.Sorted currencyLe ((get_transaction_summary txns uid).map (fun e => e.currency)) ∧
    ((get_transaction_summary txns uid).map (fun e => e.currency)).Nodup ∧
    (∀ c : String,
      c ∈ (get_transaction_summary txns uid).map (fun e => e.currency) ↔
      c ∈ (ownerTransactions txns uid).map (fun t => t.currency)) ∧
    (ownerTransactions txns uid = [] → get_transaction_summary txns uid = []) ∧
    get_transaction_summary demo40 1 = [⟨"USD", 40⟩] ∧
    create_transaction ⟨[], 1, 0⟩ 1 ((1099 : ℚ) / 100) "USD"
      = .ok (⟨1, 1, 1099, "USD", 0⟩, ⟨demo40.take 1, 2, 1⟩) ∧
    create_transaction ⟨demo40.take 1, 2, 1⟩ 1 ((2001 : ℚ) / 100) "USD"
      = .ok (⟨2, 1, 2001, "USD", 1⟩, ⟨demo40.take 2, 3, 2⟩) ∧
    create_transaction ⟨demo40.take 2, 3, 2⟩ 1 ((550 : ℚ) / 100) "USD"
      = .ok (⟨3, 1, 550, "USD", 2⟩, ⟨demo40.take 3, 4, 3⟩) ∧
    create_transaction ⟨demo40.take 3, 4, 3⟩ 1 ((350 : ℚ) / 100) "USD"
      = .ok (⟨4, 1, 350, "USD", 3⟩, ⟨demo40, 5, 4⟩) := by
  have hmap : (get_transaction_summary txns uid).map (fun e => e.currency)
      = (((ownerTransactions txns uid).map (fun t => t.currency)).dedup).insertionSort
          currencyLe := by
    unfold get_transaction_summary
    rw [List.map_map]
    exact List.map_id' _
  refine ⟨?_, ?_, ?_, ?_, ?_, ?_,
    create_transaction_eval ⟨[], 1, 0⟩ 1 1099 "USD" "USD" (by norm_num) (by decide),
    create_transaction_eval ⟨demo40.take 1, 2, 1⟩ 1 2001 "USD" "USD" (by norm_num) (by decide),
    create_transaction_eval ⟨demo40.take 2, 3, 2⟩ 1 550 "USD" "USD" (by norm_num) (by decide),
    create_transaction_eval ⟨demo40.take 3, 4, 3⟩ 1 350 "USD" "USD" (by norm_num) (by decide)⟩
  · unfold get_transaction_summary
    refine List.map_congr_left ?_
    intro c _
    exact congrArg (fun x => CurrencySummary.mk c x) (sumAmounts_div100 _ c)
  · rw [hmap]
    exact List.sorted_insertionSort currencyLe _
  · rw [hmap]
    exact ((List.perm_insertionSort currencyLe _).nodup_iff).mpr (List.nodup_dedup _)
  · intro c
    rw [hmap, (List.perm_insertionSort currencyLe _).mem_iff, List.mem_dedup]
  · intro h
    simp [get_transaction_summary, h]
  · unfold get_transaction_summary
    rw [show ((((ownerTransactions demo40 1).map (fun t => t.currency)).dedup).insertionSort
      currencyLe) = ["USD"] from by decide]
    simp only [List.map_cons, List.map_nil]
    rw [show sumAmounts (ownerTransactions demo40 1) "USD" = 4000 from by decide]
    norm_num

/-- Witness for C10: the empty-store case of the summary theorem. -/
theorem c10_summary_grouped_sorted_witness :
    ownerTransactions ([] : List Transaction) 1 = [] ∧
    get_transaction_summary ([] : List Transaction) 1 = [] :=
  ⟨rfl, (c10_summary_grouped_sorted [] 1).2.2.2.2.1 rfl⟩

end TxTrack
